import Mathlib

/-!
Shallow embedding of the `website_creator` command-line program
(`src/website_creator/src/website_creator/main.py` and `crew.py`).

The CLI resolves a customer request from flag / piped stdin / interactive
prompt, runs a declaratively configured crew, and persists a run summary.
Pure helpers (`strip`, CRLF replacement, input bags, config lookup) are
embedded as Lean functions; `main`'s control flow is embedded as a function
from the argument record, stdin state, prompt behaviour, configuration
state and crew outcome to an exit result plus a trace of filesystem events.
-/

namespace WebsiteCreator

/-- ASCII whitespace as recognised by Python `str.strip()`
(space, tab, newline, carriage return, vertical tab, form feed). -/
def pySpace (c : Char) : Bool :=
  c = ' ' || c = '\t' || c = '\n' || c = '\r' ||
  c = Char.ofNat 11 || c = Char.ofNat 12

/-- Strip leading and trailing whitespace from a character list,
as Python `str.strip()` does. -/
def stripList (l : List Char) : List Char :=
  ((l.dropWhile pySpace).reverse.dropWhile pySpace).reverse

/-- Python `s.strip()`. -/
def pyStrip (s : String) : String :=
  ⟨stripList s.data⟩

/-- Python `s.replace("\r\n", "\n")`: a single left-to-right pass
replacing each non-overlapping occurrence of CR LF by LF. -/
def replCRLF : List Char → List Char
  | '\r' :: '\n' :: rest => '\n' :: replCRLF rest
  | c :: rest => c :: replCRLF rest
  | [] => []

/-- Whether a character list contains the two-character sequence CR LF. -/
def hasCRLF : List Char → Bool
  | '\r' :: '\n' :: _ => true
  | _ :: rest => hasCRLF rest
  | [] => false

/-- Whether a string has neither a leading nor a trailing whitespace
character. -/
def noEdgeSpace (s : String) : Bool :=
  (match s.data.head? with
   | some c => !pySpace c
   | none => true) &&
  (match s.data.getLast? with
   | some c => !pySpace c
   | none => true)

/-- The state of the process's standard input: attached to a terminal, or a
pipe carrying some data (possibly empty). -/
inductive StdinState
  | tty
  | piped (data : String)
deriving DecidableEq

/-- What happens when the interactive prompt reads a line: the user enters a
line, or the read ends in EOF / a keyboard interrupt. -/
inductive PromptResult
  | line (s : String)
  | interrupted
deriving DecidableEq

/-- The parsed command-line arguments (`parse_args`). -/
structure Args where
  customerRequest : Option String
  websiteName : Option String
  emitJson : Bool
  noPrompt : Bool
deriving DecidableEq

/-- `_stdin_text`: empty when stdin is a tty; otherwise the piped data with
CR LF normalised to LF and surrounding whitespace stripped. -/
def stdinText : StdinState → String
  | .tty => ""
  | .piped d => pyStrip ⟨replCRLF d.data⟩

/-- `_ask_customer_request`: the entered line stripped, or the empty string
on EOF / keyboard interrupt at the prompt. -/
def askCustomerRequest : PromptResult → String
  | .line s => pyStrip s
  | .interrupted => ""

/-- The tail of `resolve_customer_request` after the flag check:
piped stdin if non-empty, else empty under `--no-prompt`, else the
interactive prompt. -/
def resolveAfterFlag (a : Args) (st : StdinState) (pr : PromptResult) : String :=
  let piped := stdinText st
  if piped = "" then
    if a.noPrompt then "" else askCustomerRequest pr
  else piped

/-- `resolve_customer_request`: the stripped `--customer-request` flag when
present and non-blank, else stdin, else prompt (unless `--no-prompt`). -/
def resolveCustomerRequest (a : Args) (st : StdinState) (pr : PromptResult) :
    String :=
  match a.customerRequest with
  | some s => if pyStrip s = "" then resolveAfterFlag a st pr else pyStrip s
  | none => resolveAfterFlag a st pr

/-- A single-quote character, for building error messages that quote keys. -/
def sq : String := ⟨[Char.ofNat 39]⟩

/-- A value found under a key in a loaded YAML configuration mapping:
either a dictionary (modelled as string-keyed entries) or something else. -/
inductive ConfigVal
  | dict (entries : List (String × String))
  | nondict
deriving DecidableEq

/-- The error message raised by `_get` for a missing or non-dict key:
`Missing {kind} config for '{key}'. Check your YAML.` -/
def missingMsg (key kind : String) : String :=
  "Missing " ++ kind ++ " config for " ++ sq ++ key ++ sq ++
    ". Check your YAML."

/-- `crew._get`: look up `key` in the configuration mapping; succeed with
the dictionary value, or fail with a descriptive `KeyError` message when
the key is absent or its value is not a dict. -/
def cfgGet (cfg : List (String × ConfigVal)) (key kind : String) :
    Except String (List (String × String)) :=
  match List.lookup key cfg with
  | some (.dict d) => .ok d
  | _ => .error (missingMsg key kind)

/-- Whether the first list is a prefix of the second (on characters). -/
def listPre : List Char → List Char → Bool
  | [], _ => true
  | _ :: _, [] => false
  | a :: as, b :: bs => a = b && listPre as bs

/-- Whether `needle` occurs as a contiguous substring of `hay`. -/
def hasSub (needle : List Char) : List Char → Bool
  | [] => listPre needle []
  | c :: rest => listPre needle (c :: rest) || hasSub needle rest

/-- One task declaration of `crew.py`: id, output file, schema enforcement
and retry flags, execution limits, code-execution capability, and the
`context` mapping from input names to source strings. -/
structure TaskDecl where
  id : String
  outputFile : String
  enforceJsonSchema : Bool
  retryOnSchemaFail : Bool
  maxExecutionTime : Nat
  maxRetryLimit : Nat
  allowCodeExecution : Bool
  context : List (String × String)
deriving DecidableEq

/-- The characters `.output`, the marker of a task-output source
reference. -/
def outputMark : List Char := ['.', 'o', 'u', 't', 'p', 'u', 't']

/-- The characters preceding the first occurrence of `.output` in the list,
or `none` when `.output` does not occur. -/
def refPre : List Char → Option (List Char)
  | [] => none
  | c :: rest =>
    if listPre outputMark (c :: rest) then some []
    else
      match refPre rest with
      | some p => some (c :: p)
      | none => none

/-- The task id referenced by a context source string of the form
`<task-id>.output(.subfield)`, or `none` for external parameters and plain
literals. -/
def refTaskOf (s : String) : Option String :=
  (refPre s.data).map fun l => ⟨l⟩

/-- The tasks of `WebsiteCreator`, in the declaration order of the
`@crew(tasks=[...])` list. -/
def crewTasks : List TaskDecl :=
  [ { id := "planner_task", outputFile := "artifacts/planner.json",
      enforceJsonSchema := true, retryOnSchemaFail := true,
      maxExecutionTime := 180, maxRetryLimit := 2,
      allowCodeExecution := false,
      context := [("customer_request", "{customer_request}")] },
    { id := "team_leader_task", outputFile := "artifacts/blueprint.md",
      enforceJsonSchema := false, retryOnSchemaFail := false,
      maxExecutionTime := 180, maxRetryLimit := 2,
      allowCodeExecution := false,
      context := [("planner_output", "planner_task.output"),
                  ("website_name", "{website_name}")] },
    { id := "frontend_developer_task", outputFile := "artifacts/frontend.json",
      enforceJsonSchema := true, retryOnSchemaFail := true,
      maxExecutionTime := 600, maxRetryLimit := 3,
      allowCodeExecution := true,
      context := [("planner_output", "planner_task.output"),
                  ("leader_blueprint", "team_leader_task.output"),
                  ("ui_framework", "gradio")] },
    { id := "backend_developer_task", outputFile := "artifacts/backend.json",
      enforceJsonSchema := true, retryOnSchemaFail := true,
      maxExecutionTime := 600, maxRetryLimit := 3,
      allowCodeExecution := true,
      context := [("planner_output", "planner_task.output"),
                  ("leader_blueprint", "team_leader_task.output"),
                  ("shared_classes",
                    "frontend_developer_task.output.shared_classes")] },
    { id := "integration_task", outputFile := "artifacts/integration.json",
      enforceJsonSchema := true, retryOnSchemaFail := true,
      maxExecutionTime := 360, maxRetryLimit := 2,
      allowCodeExecution := false,
      context := [("frontend_artifact", "frontend_developer_task.output"),
                  ("backend_artifact", "backend_developer_task.output"),
                  ("planner_output", "planner_task.output")] },
    { id := "repository_management_task",
      outputFile := "artifacts/repository.json",
      enforceJsonSchema := true, retryOnSchemaFail := true,
      maxExecutionTime := 240, maxRetryLimit := 2,
      allowCodeExecution := false,
      context := [("integration_output", "integration_task.output"),
                  ("website_folder", "website")] },
    { id := "testing_task", outputFile := "artifacts/test_report.json",
      enforceJsonSchema := true, retryOnSchemaFail := true,
      maxExecutionTime := 300, maxRetryLimit := 2,
      allowCodeExecution := false,
      context := [("features", "planner_task.output.features"),
                  ("final_directory",
                    "repository_management_task.output.final_directory"),
                  ("launch_cmd", "python app.py")] },
    { id := "evaluation_task", outputFile := "artifacts/evaluation.json",
      enforceJsonSchema := true, retryOnSchemaFail := true,
      maxExecutionTime := 180, maxRetryLimit := 2,
      allowCodeExecution := false,
      context := [("customer_request", "{customer_request}"),
                  ("test_report", "testing_task.output"),
                  ("repo_summary", "repository_management_task.output")] } ]

/-- Walk the task list in declaration order, checking that every
task-output source reference names a task already seen. -/
def dagOkFrom (seen : List String) : List TaskDecl → Bool
  | [] => true
  | t :: rest =>
    t.context.all (fun p =>
      match refTaskOf p.2 with
      | none => true
      | some tid => seen.contains tid) &&
    dagOkFrom (seen ++ [t.id]) rest

/-- Every task-output reference in any task's context names a strictly
earlier task in declaration order. -/
def dagOk (ts : List TaskDecl) : Bool :=
  dagOkFrom [] ts

/-- `ARTIFACTS_DIR`. -/
def artifactsDir : String := "artifacts"

/-- The path written by `_persist_run_summary`:
`ARTIFACTS_DIR / "run_summary.json"`. -/
def persistPath : String := artifactsDir ++ "/run_summary.json"

/-- Python `website_name or "Generated Website"`: `None` and the empty
string are falsy and fall back to the placeholder. -/
def pyOrDefault : Option String → String
  | some s => if s = "" then "Generated Website" else s
  | none => "Generated Website"

/-- The input bag built by `WebsiteCreator.run` and passed to
`crew().kickoff`. -/
def runInputs (request : String) (name : Option String) :
    List (String × String) :=
  [("customer_request", request), ("website_name", pyOrDefault name)]

/-- `_build_inputs`: the auxiliary bag of `main`, carrying the request and
`str(datetime.now().year)`; the observed year string is an explicit
parameter of the model. -/
def buildInputs (request currentYear : String) : List (String × String) :=
  [("customer_request", request), ("current_year", currentYear)]

/-- The JSON record persisted to the run-summary sink: the success shape
`{ok: true, customer_request, website_name, artifacts_dir, result}` or the
failure shape `{ok: false, error, customer_request}`. -/
inductive Summary
  | success (request name dir result : String)
  | failure (error request : String)
deriving DecidableEq

/-- A filesystem / pipeline event of one `main` invocation, in order:
directory creation in `main`, directory creation in
`WebsiteCreator.__init__`, the kickoff call with its input bag, a task
output file written during crew execution, and the run-summary write. -/
inductive Event
  | ensureDirMain
  | ensureDirCrew
  | kickoff (inputs : List (String × String))
  | taskWrite (file : String)
  | writeSummary (path : String) (s : Summary)
deriving DecidableEq

/-- How `main` ends: an ordinary return with an exit code, or an exception
escaping `main` (a pre-execution configuration error). -/
inductive MainResult
  | exit (code : Nat)
  | uncaught (msg : String)
deriving DecidableEq

/-- The outcome of `wc.run(...)` (crew execution, delegated to the external
library): a result value, an exception, or a keyboard interrupt; each
carries the task output files the library wrote before finishing. -/
inductive CrewOutcome
  | success (result : String) (writes : List String)
  | failed (msg : String) (writes : List String)
  | interrupted (writes : List String)
deriving DecidableEq

/-- The `RuntimeError` message of `_validate_crewai_yaml_loaded` for a
missing configuration dict. -/
def notLoadedMsg (which file : String) : String :=
  which ++ " not loaded. Ensure " ++ sq ++ file ++ sq ++
    " exists and CrewBase path is correct."

/-- `main(argv)`: resolves the request, exits 2 when it is empty, builds
the crew (its constructor ensures the artifacts directory), validates that
both YAML configs loaded as dicts (raising otherwise), then runs the crew:
interrupt exits 130; an exception persists a failure summary and exits 1;
success persists a success summary and exits 0. Returns the final result
and the ordered event trace. -/
def mainRun (a : Args) (st : StdinState) (pr : PromptResult)
    (agentsCfgLoaded tasksCfgLoaded : Bool) (outcome : CrewOutcome) :
    MainResult × List Event :=
  let ev0 := [Event.ensureDirMain]
  let req := resolveCustomerRequest a st pr
  if req = "" then (.exit 2, ev0)
  else
    let ev1 := ev0 ++ [Event.ensureDirCrew]
    if agentsCfgLoaded = false then
      (.uncaught (notLoadedMsg "agents_config" "config/agents.yaml"), ev1)
    else if tasksCfgLoaded = false then
      (.uncaught (notLoadedMsg "tasks_config" "config/tasks.yaml"), ev1)
    else
      let ev2 := ev1 ++ [Event.kickoff (runInputs req a.websiteName)]
      match outcome with
      | .interrupted ws => (.exit 130, ev2 ++ ws.map Event.taskWrite)
      | .failed m ws =>
          (.exit 1,
            ev2 ++ ws.map Event.taskWrite ++
              [Event.writeSummary persistPath (.failure m req)])
      | .success r ws =>
          (.exit 0,
            ev2 ++ ws.map Event.taskWrite ++
              [Event.writeSummary persistPath
                (.success req (pyOrDefault a.websiteName) artifactsDir r)])

/-- Whether a trace contains a run-summary write. -/
def hasSummary (evs : List Event) : Bool :=
  evs.any fun e =>
    match e with
    | .writeSummary _ _ => true
    | _ => false

/-- Whether a trace contains a kickoff call. -/
def hasKickoff (evs : List Event) : Bool :=
  evs.any fun e =>
    match e with
    | .kickoff _ => true
    | _ => false

/-- Whether a trace contains the crew-constructor directory creation. -/
def hasCrewDir (evs : List Event) : Bool :=
  evs.any fun e =>
    match e with
    | .ensureDirCrew => true
    | _ => false

/-- Every file write in the trace is preceded by an earlier
directory-ensuring event. -/
def dirBeforeWrites (seen : Bool) : List Event → Bool
  | [] => true
  | .ensureDirMain :: rest => dirBeforeWrites true rest
  | .ensureDirCrew :: rest => dirBeforeWrites true rest
  | .kickoff _ :: rest => dirBeforeWrites seen rest
  | .taskWrite _ :: rest => seen && dirBeforeWrites seen rest
  | .writeSummary _ _ :: rest => seen && dirBeforeWrites seen rest

/-- The `website_name` entry of the first kickoff call in the trace. -/
def kickoffNameOf : List Event → Option String
  | [] => none
  | .kickoff ins :: _ => List.lookup "website_name" ins
  | _ :: rest => kickoffNameOf rest

/-- The website name recorded by the first success summary in the trace. -/
def summaryNameOf : List Event → Option String
  | [] => none
  | .writeSummary _ (.success _ n _ _) :: _ => some n
  | _ :: rest => summaryNameOf rest

/-- Modelled from the spec: the explicit request parameter when present and
non-blank (blank treated as absent), as a first-class optional value. -/
def flagValue (a : Args) : Option String :=
  match a.customerRequest with
  | some s => if pyStrip s = "" then none else some (pyStrip s)
  | none => none

/-- Modelled from the spec: the non-interactive input stream's content when
data is present, as a first-class optional value. -/
def stdinValue (st : StdinState) : Option String :=
  if stdinText st = "" then none else some (stdinText st)

/-- Modelled from the spec: request resolution in priority order —
explicit parameter, else non-interactive stream, else interactive prompt
unless non-interactive mode is forced, in which case the request is
empty. -/
def resolveSpecOrder (a : Args) (st : StdinState) (pr : PromptResult) :
    String :=
  match flagValue a with
  | some v => v
  | none =>
    match stdinValue st with
    | some v => v
    | none => if a.noPrompt then "" else askCustomerRequest pr

/-- Whether a path ends in `.json`. -/
def endsJson (s : String) : Bool :=
  listPre ".json".data.reverse s.data.reverse

/-- Whether a path lies under the `artifacts/` directory. -/
def underArtifacts (s : String) : Bool :=
  listPre "artifacts/".data s.data

theorem str_data_append (a b : String) : (a ++ b).data = a.data ++ b.data :=
  rfl

theorem head_dropWhile_false (p : Char → Bool) :
    ∀ (l : List Char) (c : Char),
      (l.dropWhile p).head? = some c → p c = false := by
  intro l
  induction l with
  | nil => intro c h; simp [List.dropWhile] at h
  | cons a as ih =>
    intro c h
    rw [List.dropWhile_cons] at h
    by_cases hp : p a
    · rw [if_pos hp] at h
      exact ih c h
    · rw [if_neg hp] at h
      simp only [List.head?_cons, Option.some.injEq] at h
      subst h
      exact Bool.not_eq_true _ ▸ (by simpa using hp)

theorem getLast_dropWhile_ne_nil (p : Char → Bool) :
    ∀ (l : List Char), l.dropWhile p ≠ [] →
      (l.dropWhile p).getLast? = l.getLast? := by
  intro l
  induction l with
  | nil => intro h; simp [List.dropWhile] at h
  | cons a as ih =>
    intro h
    rw [List.dropWhile_cons] at h ⊢
    by_cases hp : p a
    · rw [if_pos hp] at h ⊢
      have has : as ≠ [] := by
        intro hnil
        subst hnil
        simp [List.dropWhile] at h
      rw [ih h]
      cases as with
      | nil => exact absurd rfl has
      | cons b bs => rw [List.getLast?_cons_cons]
    · rw [if_neg hp]

theorem stripList_head (l : List Char) (c : Char)
    (h : (stripList l).head? = some c) : pySpace c = false := by
  unfold stripList at h
  have hne : ((l.dropWhile pySpace).reverse.dropWhile pySpace) ≠ [] := by
    intro hnil
    rw [hnil] at h
    simp at h
  rw [List.head?_reverse,
    getLast_dropWhile_ne_nil pySpace _ hne,
    List.getLast?_reverse] at h
  exact head_dropWhile_false pySpace _ c h

theorem stripList_getLast (l : List Char) (c : Char)
    (h : (stripList l).getLast? = some c) : pySpace c = false := by
  unfold stripList at h
  rw [List.getLast?_reverse] at h
  exact head_dropWhile_false pySpace _ c h

theorem noEdgeSpace_pyStrip (s : String) : noEdgeSpace (pyStrip s) = true := by
  unfold noEdgeSpace pyStrip
  cases hh : (stripList s.data).head? with
  | none => cases hg : (stripList s.data).getLast? with
    | none => simp [hh, hg]
    | some c => simp [hh, hg, stripList_getLast s.data c hg]
  | some c => cases hg : (stripList s.data).getLast? with
    | none => simp [hh, hg, stripList_head s.data c hh]
    | some d =>
        simp [hh, hg, stripList_head s.data c hh,
          stripList_getLast s.data d hg]

theorem noEdgeSpace_empty : noEdgeSpace "" = true := by decide

theorem hasSummary_taskWrites (ws : List String) :
    hasSummary (ws.map Event.taskWrite) = false := by
  induction ws with
  | nil => rfl
  | cons w ws ih =>
    simp only [List.map_cons, hasSummary, List.any_cons] at ih ⊢
    simp [ih]

theorem hasSummary_append (l r : List Event) :
    hasSummary (l ++ r) = (hasSummary l || hasSummary r) := by
  simp [hasSummary]

theorem summaryNameOf_taskWrites (ws : List String) (r : List Event) :
    summaryNameOf (ws.map Event.taskWrite ++ r) = summaryNameOf r := by
  induction ws with
  | nil => rfl
  | cons w ws ih => simpa [summaryNameOf] using ih

theorem dirBeforeWrites_taskWrites (ws : List String) (r : List Event) :
    dirBeforeWrites true (ws.map Event.taskWrite ++ r) =
      dirBeforeWrites true r := by
  induction ws with
  | nil => rfl
  | cons w ws ih => simpa [dirBeforeWrites] using ih

theorem replCRLF_cons_ne (c : Char) (rest : List Char)
    (hside : ∀ (r : List Char), c = '\r' → rest = '\n' :: r → False) :
    replCRLF (c :: rest) = c :: replCRLF rest := by
  rw [replCRLF.eq_def]
  split
  · rename_i r heq
    injection heq with h1 h2
    exact absurd trivial (fun _ => hside r h1 h2)
  · rename_i c2 r2 _ heq
    injection heq with h1 h2
    rw [h1, h2]
  · rename_i heq
    exact absurd heq (by simp)

theorem allSpace_replCRLF (l : List Char) :
    l.all pySpace = true → (replCRLF l).all pySpace = true := by
  induction l using replCRLF.induct with
  | case1 rest ih =>
    intro h
    simp only [List.all_cons, Bool.and_eq_true] at h
    rw [replCRLF]
    simp only [List.all_cons, Bool.and_eq_true]
    exact ⟨h.2.1, ih h.2.2⟩
  | case2 c rest hside ih =>
    intro h
    simp only [List.all_cons, Bool.and_eq_true] at h
    rw [replCRLF_cons_ne c rest hside]
    simp only [List.all_cons, Bool.and_eq_true]
    exact ⟨h.1, ih h.2⟩
  | case3 => intro _; rfl

theorem stripList_allSpace (l : List Char) (h : l.all pySpace = true) :
    stripList l = [] := by
  have h1 : l.dropWhile pySpace = [] := by
    rw [List.dropWhile_eq_nil_iff]
    intro x hx
    exact (List.all_eq_true.mp h) x hx
  unfold stripList
  rw [h1]
  rfl

theorem stdinText_allSpace (d : String) (h : d.data.all pySpace = true) :
    stdinText (.piped d) = "" := by
  unfold stdinText pyStrip
  have : stripList (replCRLF d.data) = [] :=
    stripList_allSpace _ (allSpace_replCRLF d.data h)
  simp [this]

theorem listPre_self_append (l t : List Char) : listPre l (l ++ t) = true := by
  induction l with
  | nil => rfl
  | cons a as ih => simp [listPre, ih]

theorem hasSub_of_listPre (n h : List Char) (hp : listPre n h = true) :
    hasSub n h = true := by
  cases h with
  | nil => simpa [hasSub] using hp
  | cons c rest => simp [hasSub, hp]

theorem hasSub_cons_of (n : List Char) (c : Char) (h : List Char)
    (hs : hasSub n h = true) : hasSub n (c :: h) = true := by
  simp [hasSub, hs]

theorem hasSub_append_left (pre n h : List Char)
    (hs : hasSub n h = true) : hasSub n (pre ++ h) = true := by
  induction pre with
  | nil => simpa using hs
  | cons c cs ih => simpa using hasSub_cons_of n c (cs ++ h) ih

theorem hasSub_mid (pre mid post : List Char) :
    hasSub mid (pre ++ (mid ++ post)) = true :=
  hasSub_append_left pre mid (mid ++ post)
    (hasSub_of_listPre mid (mid ++ post) (listPre_self_append mid post))

theorem missingMsg_data (key kind : String) :
    (missingMsg key kind).data =
      "Missing ".data ++ (kind.data ++ (" config for ".data ++ (sq.data ++
        (key.data ++ (sq.data ++ ". Check your YAML.".data))))) := by
  unfold missingMsg
  simp [str_data_append, List.append_assoc]

theorem missingMsg_has_key (key kind : String) :
    hasSub key.data (missingMsg key kind).data = true := by
  rw [missingMsg_data]
  rw [show "Missing ".data ++ (kind.data ++ (" config for ".data ++
      (sq.data ++ (key.data ++ (sq.data ++ ". Check your YAML.".data))))) =
      ("Missing ".data ++ kind.data ++ " config for ".data ++ sq.data) ++
        (key.data ++ (sq.data ++ ". Check your YAML.".data)) by
    simp [List.append_assoc]]
  exact hasSub_mid _ _ _

theorem missingMsg_has_kind (key kind : String) :
    hasSub kind.data (missingMsg key kind).data = true := by
  rw [missingMsg_data]
  exact hasSub_mid "Missing ".data kind.data _

theorem lookup_runInputs_name (req : String) (n : Option String) :
    List.lookup "website_name" (runInputs req n) = some (pyOrDefault n) := by
  rfl

theorem lookup_runInputs_request (req : String) (n : Option String) :
    List.lookup "customer_request" (runInputs req n) = some req := by
  rfl

theorem dirBeforeWrites_taskWrites_only (ws : List String) :
    dirBeforeWrites true (ws.map Event.taskWrite) = true := by
  have h := dirBeforeWrites_taskWrites ws []
  simpa using h

/-- C4: every source-reference of the form `<task-id>.output(.subfield)` in
a task's context mapping names a task that appears strictly earlier in the
declared task order, so the declared dependency graph has no cycle-back
edge. -/
theorem C4_context_references_acyclic : dagOk crewTasks = true := by decide

/-- C7: each task's output sink is a file under `artifacts/` whose
extension is `.json` exactly when the task enforces a JSON schema
(the narrative blueprint task uses `.md`), and the run summary is written
to `artifacts/run_summary.json`. -/
theorem C7_output_sinks :
    crewTasks.all (fun t =>
      (endsJson t.outputFile == t.enforceJsonSchema) &&
      underArtifacts t.outputFile) = true ∧
    persistPath = "artifacts/run_summary.json" := by
  exact ⟨by decide, rfl⟩

/-- C2: the customer request is resolved in priority order — the explicit
flag when present and non-blank, else the non-interactive stream when data
is present, else the interactive prompt unless `--no-prompt` forces
non-interactive mode, in which case the empty request results and `main`
treats it as a CLI-level error (exit code 2). -/
theorem C2_resolution_priority (a : Args) (st : StdinState)
    (pr : PromptResult) :
    resolveCustomerRequest a st pr = resolveSpecOrder a st pr ∧
    (∀ (ac tc : Bool) (oc : CrewOutcome),
      resolveCustomerRequest a st pr = "" →
      (mainRun a st pr ac tc oc).1 = .exit 2) := by
  constructor
  · unfold resolveCustomerRequest resolveSpecOrder flagValue stdinValue
      resolveAfterFlag
    cases a.customerRequest with
    | none => by_cases h : stdinText st = "" <;> simp [h]
    | some s =>
      by_cases hs : pyStrip s = "" <;> by_cases h : stdinText st = "" <;>
        simp [hs, h]
  · intro ac tc oc h
    simp [mainRun, h]

/-- Witness for C2 at a concrete no-input invocation under forced
non-interactive mode. -/
theorem C2_resolution_priority_witness :
    resolveCustomerRequest ⟨none, none, false, true⟩ .tty .interrupted =
      resolveSpecOrder ⟨none, none, false, true⟩ .tty .interrupted ∧
    (mainRun ⟨none, none, false, true⟩ .tty .interrupted true true
      (.success "r" [])).1 = .exit 2 := by
  have h := C2_resolution_priority ⟨none, none, false, true⟩ .tty .interrupted
  exact ⟨h.1, h.2 true true (.success "r" []) (by decide)⟩

/-- C6: when the configuration mapping lacks the requested id, or maps it
to a non-dictionary, `_get` fails with an error message naming the key and
its kind. -/
theorem C6_missing_config_fails (cfg : List (String × ConfigVal))
    (key kind : String)
    (h : ∀ d, List.lookup key cfg ≠ some (.dict d)) :
    cfgGet cfg key kind = .error (missingMsg key kind) ∧
    hasSub key.data (missingMsg key kind).data = true ∧
    hasSub kind.data (missingMsg key kind).data = true := by
  refine ⟨?_, missingMsg_has_key key kind, missingMsg_has_kind key kind⟩
  unfold cfgGet
  cases hl : List.lookup key cfg with
  | none => rfl
  | some v =>
    cases v with
    | dict d => exact absurd hl (h d)
    | nondict => rfl

/-- Witness for C6 on an empty configuration mapping. -/
theorem C6_missing_config_fails_witness :
    cfgGet [] "planner" "agent" = .error (missingMsg "planner" "agent") ∧
    hasSub "planner".data (missingMsg "planner" "agent").data = true ∧
    hasSub "agent".data (missingMsg "planner" "agent").data = true :=
  C6_missing_config_fails [] "planner" "agent" (by intro d h; simp at h)

/-- C9 counterexample: `_build_inputs` embeds the observed current year, so
two runs with the identical request made in different years construct
different input bags. -/
theorem C9_counterexample :
    buildInputs "build a todo app" "2024" ≠
      buildInputs "build a todo app" "2025" := by
  decide

/-- C9 (amended): the bag passed to `crew().kickoff` by
`WebsiteCreator.run` is a pure function of the request and the optional
name, hence identical across reruns with identical inputs; the auxiliary
`_build_inputs` bag also embeds the current year and coincides across two
runs exactly when the observed year strings coincide. -/
theorem C9_determinism_amended (req c1 c2 : String) (name : Option String) :
    (buildInputs req c1 = buildInputs req c2 ↔ c1 = c2) ∧
    List.lookup "customer_request" (buildInputs req c1) = some req ∧
    runInputs req name =
      [("customer_request", req), ("website_name", pyOrDefault name)] := by
  refine ⟨⟨fun h => ?_, fun h => by rw [h]⟩, rfl, rfl⟩
  simpa [buildInputs] using h

/-- C1 counterexample: the no-input invocation under `--no-prompt` passes
argument parsing and terminates (exit code 2) without any write to the
run-summary sink. -/
theorem C1_counterexample :
    (mainRun ⟨none, none, false, true⟩ .tty .interrupted true true
      (.success "r" [])).1 = .exit 2 ∧
    hasSummary (mainRun ⟨none, none, false, true⟩ .tty .interrupted true true
      (.success "r" [])).2 = false := by
  decide

/-- C1 (amended): a run-summary record is persisted exactly on the
pipeline-success and generic pipeline-exception paths (exit codes 0 and 1);
the no-input path, a user interrupt during crew execution, and a
configuration error raised before execution all terminate without writing
a summary. -/
theorem C1_summary_persistence_amended (a : Args) (st : StdinState)
    (pr : PromptResult) (ac tc : Bool) (oc : CrewOutcome) :
    hasSummary (mainRun a st pr ac tc oc).2 = true ↔
      ((mainRun a st pr ac tc oc).1 = .exit 0 ∨
       (mainRun a st pr ac tc oc).1 = .exit 1) := by
  by_cases hreq : resolveCustomerRequest a st pr = ""
  · simp [mainRun, hreq, hasSummary]
  · cases ac with
    | false => simp [mainRun, hreq, hasSummary]
    | true =>
      cases tc with
      | false => simp [mainRun, hreq, hasSummary]
      | true =>
        cases oc with
        | interrupted ws =>
          simp [mainRun, hreq, hasSummary_append, hasSummary_taskWrites,
            hasSummary]
        | failed m ws =>
          simp [mainRun, hreq, hasSummary_append, hasSummary_taskWrites,
            hasSummary]
        | success r ws =>
          simp [mainRun, hreq, hasSummary_append, hasSummary_taskWrites,
            hasSummary]

/-- C3 counterexample: a user interrupt at the interactive prompt is
treated as absence of input and yields exit code 2, not 130. -/
theorem C3_counterexample :
    (mainRun ⟨none, none, false, false⟩ .tty .interrupted true true
      (.success "r" [])).1 = .exit 2 ∧
    MainResult.exit 2 ≠ MainResult.exit 130 := by
  decide

/-- C3 (amended): with valid configuration, `main` exits 0 on pipeline
success, 1 on a pipeline exception, 2 when resolution produces no request
(including an interrupt or EOF at the interactive prompt), and 130 exactly
when the interrupt occurs during crew execution. -/
theorem C3_exit_codes_amended (a : Args) (st : StdinState)
    (pr : PromptResult) (oc : CrewOutcome) :
    (mainRun a st pr true true oc).1 =
      (if resolveCustomerRequest a st pr = "" then .exit 2
       else
         match oc with
         | .success _ _ => .exit 0
         | .failed _ _ => .exit 1
         | .interrupted _ => .exit 130) := by
  by_cases hreq : resolveCustomerRequest a st pr = "" <;>
    cases oc <;> simp [mainRun, hreq]

/-- C5: the artifacts directory is ensured at the start of `main` before
any file write (the trace begins with the directory creation, and every
task-output or summary write is preceded by a directory-ensuring event),
and whenever the crew is built and kicked off its constructor has ensured
the directory as well. -/
theorem C5_dir_before_writes (a : Args) (st : StdinState) (pr : PromptResult)
    (ac tc : Bool) (oc : CrewOutcome) :
    dirBeforeWrites false (mainRun a st pr ac tc oc).2 = true ∧
    (mainRun a st pr ac tc oc).2.head? = some .ensureDirMain ∧
    (!hasKickoff (mainRun a st pr ac tc oc).2 ||
      hasCrewDir (mainRun a st pr ac tc oc).2) = true := by
  by_cases hreq : resolveCustomerRequest a st pr = ""
  · simp [mainRun, hreq, dirBeforeWrites, hasKickoff, hasCrewDir]
  · cases ac with
    | false => simp [mainRun, hreq, dirBeforeWrites, hasKickoff, hasCrewDir]
    | true =>
      cases tc with
      | false => simp [mainRun, hreq, dirBeforeWrites, hasKickoff, hasCrewDir]
      | true =>
        cases oc with
        | interrupted ws =>
          refine ⟨?_, by simp [mainRun, hreq], by simp [mainRun, hreq,
            hasKickoff, hasCrewDir]⟩
          simp [mainRun, hreq, dirBeforeWrites,
            dirBeforeWrites_taskWrites_only]
        | failed m ws =>
          refine ⟨?_, by simp [mainRun, hreq], by simp [mainRun, hreq,
            hasKickoff, hasCrewDir]⟩
          simp [mainRun, hreq, dirBeforeWrites, dirBeforeWrites_taskWrites]
        | success r ws =>
          refine ⟨?_, by simp [mainRun, hreq], by simp [mainRun, hreq,
            hasKickoff, hasCrewDir]⟩
          simp [mainRun, hreq, dirBeforeWrites, dirBeforeWrites_taskWrites]

/-- C8 counterexample: an explicitly supplied empty-string website name is
falsy in Python, so the pipeline receives the placeholder rather than the
supplied value. -/
theorem C8_counterexample :
    runInputs "r" (some "") = runInputs "r" none ∧
    pyOrDefault (some "") = "Generated Website" ∧
    ("" : String) ≠ "Generated Website" := by
  exact ⟨rfl, rfl, by decide⟩

/-- C8 (amended): the website name passed in the kickoff inputs and the
one recorded in the success summary both equal
`website_name or "Generated Website"`: the placeholder when the name is
absent or the empty string, and the supplied value when it is non-empty. -/
theorem C8_name_default_amended (a : Args) (st : StdinState)
    (pr : PromptResult) (r : String) (ws : List String)
    (hreq : resolveCustomerRequest a st pr ≠ "") :
    kickoffNameOf (mainRun a st pr true true (.success r ws)).2 =
      some (pyOrDefault a.websiteName) ∧
    summaryNameOf (mainRun a st pr true true (.success r ws)).2 =
      some (pyOrDefault a.websiteName) ∧
    pyOrDefault none = "Generated Website" ∧
    pyOrDefault (some "") = "Generated Website" ∧
    (∀ s : String, s ≠ "" → pyOrDefault (some s) = s) := by
  have htr : (mainRun a st pr true true (.success r ws)).2 =
      Event.ensureDirMain :: Event.ensureDirCrew ::
        Event.kickoff
          (runInputs (resolveCustomerRequest a st pr) a.websiteName) ::
        (ws.map Event.taskWrite ++
          [Event.writeSummary persistPath
            (.success (resolveCustomerRequest a st pr)
              (pyOrDefault a.websiteName) artifactsDir r)]) := by
    simp [mainRun, hreq]
  refine ⟨?_, ?_, rfl, rfl, fun s hs => by simp [pyOrDefault, hs]⟩
  · rw [htr]
    simp [kickoffNameOf, lookup_runInputs_name]
  · rw [htr]
    simp [summaryNameOf, summaryNameOf_taskWrites]

/-- Witness for C8 at a concrete run with a non-empty supplied name. -/
theorem C8_name_default_amended_witness :
    kickoffNameOf (mainRun ⟨some "todo", some "My Site", false, true⟩ .tty
      .interrupted true true (.success "res" [])).2 =
      some (pyOrDefault (some "My Site")) ∧
    summaryNameOf (mainRun ⟨some "todo", some "My Site", false, true⟩ .tty
      .interrupted true true (.success "res" [])).2 =
      some (pyOrDefault (some "My Site")) ∧
    pyOrDefault none = "Generated Website" ∧
    pyOrDefault (some "") = "Generated Website" ∧
    pyOrDefault (some "My Site") = "My Site" := by
  have h := C8_name_default_amended ⟨some "todo", some "My Site", false, true⟩
    .tty .interrupted "res" [] (by decide)
  exact ⟨h.1, h.2.1, h.2.2.1, h.2.2.2.1,
    h.2.2.2.2 "My Site" (by decide)⟩

/-- C10 counterexample: a CRLF inside the `--customer-request` flag value
survives resolution, since only the stdin path normalises line endings. -/
theorem C10_counterexample :
    hasCRLF (resolveCustomerRequest ⟨some "a\r\nb", none, false, true⟩ .tty
      .interrupted).data = true := by
  decide

/-- C10 (amended): on every path the resolved request has no leading or
trailing whitespace, and an empty or whitespace-only flag or stdin value
is treated as absent so resolution falls through; CRLF sequences are not
guaranteed absent (the flag and prompt paths perform no normalisation). -/
theorem C10_trimmed_amended (a : Args) (st : StdinState)
    (pr : PromptResult) :
    noEdgeSpace (resolveCustomerRequest a st pr) = true ∧
    (∀ s : String, pyStrip s = "" →
      resolveCustomerRequest { a with customerRequest := some s } st pr =
        resolveCustomerRequest { a with customerRequest := none } st pr) ∧
    (∀ d : String, d.data.all pySpace = true →
      resolveCustomerRequest a (.piped d) pr =
        resolveCustomerRequest a .tty pr) := by
  refine ⟨?_, ?_, ?_⟩
  · unfold resolveCustomerRequest resolveAfterFlag
    cases a.customerRequest with
    | none =>
      by_cases h : stdinText st = ""
      · by_cases hn : a.noPrompt
        · simp [h, hn, noEdgeSpace_empty]
        · cases pr with
          | line s => simp [h, hn, noEdgeSpace_pyStrip,
              askCustomerRequest]
          | interrupted => simp [h, hn, noEdgeSpace_empty,
              askCustomerRequest]
      · cases st with
        | tty => simp [stdinText] at h
        | piped d =>
          have h2 : ¬pyStrip ⟨replCRLF d.data⟩ = "" := by
            simpa [stdinText] using h
          simp [stdinText, h2, noEdgeSpace_pyStrip]
    | some s =>
      by_cases hs : pyStrip s = ""
      · by_cases h : stdinText st = ""
        · by_cases hn : a.noPrompt
          · simp [hs, h, hn, noEdgeSpace_empty]
          · cases pr with
            | line t => simp [hs, h, hn, noEdgeSpace_pyStrip,
                askCustomerRequest]
            | interrupted => simp [hs, h, hn, noEdgeSpace_empty,
                askCustomerRequest]
        · cases st with
          | tty => simp [stdinText] at h
          | piped d =>
            have h2 : ¬pyStrip ⟨replCRLF d.data⟩ = "" := by
              simpa [stdinText] using h
            simp [hs, stdinText, h2, noEdgeSpace_pyStrip]
      · simp [hs, noEdgeSpace_pyStrip]
  · intro s hs
    simp [resolveCustomerRequest, resolveAfterFlag, hs]
  · intro d hd
    have hz : pyStrip ⟨replCRLF d.data⟩ = "" := stdinText_allSpace d hd
    unfold resolveCustomerRequest
    cases a.customerRequest <;>
      simp [resolveAfterFlag, stdinText, hz]

/-- Witness for C10 with a whitespace-only flag value and a
whitespace-only piped stdin. -/
theorem C10_trimmed_amended_witness :
    noEdgeSpace (resolveCustomerRequest ⟨some " x ", none, false, false⟩ .tty
      (.line "y")) = true ∧
    resolveCustomerRequest ⟨some "  ", none, false, false⟩ .tty (.line "y") =
      resolveCustomerRequest ⟨none, none, false, false⟩ .tty (.line "y") ∧
    resolveCustomerRequest ⟨some " x ", none, false, false⟩
        (.piped " \r\n ") (.line "y") =
      resolveCustomerRequest ⟨some " x ", none, false, false⟩ .tty
        (.line "y") := by
  have h := C10_trimmed_amended ⟨some " x ", none, false, false⟩ .tty
    (.line "y")
  exact ⟨h.1, h.2.1 "  " (by decide), h.2.2 " \r\n " (by decide)⟩

end WebsiteCreator
